import Mathlib

/-!
Verification development for the multi-agent trading pipeline
(Portfolio Manager orchestration, vote aggregation, risk gate, execution
handoff) of the `alduaij_trading_system_v3` repository.

The Python sources are shallowly embedded: dictionaries become the `PyVal`
type, floats become rationals (`ℚ`), agent results become the `AgentResult`
structure mirroring `BaseAgent.format_analysis_result`, and `try/except`
blocks become `Except String` computations whose `error` branch carries the
exception message.  External collaborators (MetaTrader 5, the reasoning
provider, the database) are supplied as explicit environment parameters.
-/

/-- Embedding of a Python value as used by the agents' free-form `data`
dictionaries: `None`, booleans, numbers, strings and string-keyed dicts. -/
inductive PyVal where
  | none : PyVal
  | bool : Bool → PyVal
  | num : ℚ → PyVal
  | str : String → PyVal
  | dict : List (String × PyVal) → PyVal

/-- Python truthiness: `None`, `False`, `0`, `""` and `{}` are falsy. -/
def pyTruthy : PyVal → Bool
  | PyVal.none => false
  | PyVal.bool b => b
  | PyVal.num q => decide (q ≠ 0)
  | PyVal.str s => decide (s ≠ "")
  | PyVal.dict l => !l.isEmpty

/-- Embedding of Python's `str.lower()`: lower-case each character. -/
def strLower (s : String) : String :=
  ⟨s.data.map Char.toLower⟩

/-- Embedding of `d.get(k)` on a dict: first binding of the key, `none`
otherwise (our embedded programs only call `.get` on dicts). -/
def pyGet : PyVal → String → Option PyVal
  | PyVal.dict l, k => (l.find? (fun p => p.1 == k)).map (fun p => p.2)
  | _, _ => Option.none

/-- Embedding of `d.get(k, default)`. -/
def pyGetD (v : PyVal) (k : String) (d : PyVal) : PyVal :=
  (pyGet v k).getD d

/-- Normalized result of an agent's `analyze`, mirroring
`BaseAgent.format_analysis_result` (base_agent.py lines 172-186).  The
wall-clock `timestamp` field is omitted: it comes from the ambient clock and
no decision logic reads it. -/
structure AgentResult where
  agent : String
  recommendation : String
  confidence : ℚ
  reasoning : String
  data : PyVal

/-- Embedding of `BaseAgent.format_analysis_result`. -/
def format_analysis_result (agent recommendation : String) (confidence : ℚ)
    (reasoning : String) (data : PyVal) : AgentResult :=
  ⟨agent, recommendation, confidence, reasoning, data⟩

/-- Python truthiness of an optional float (`if peak_balance:` treats both
`None` and `0.0` as falsy). -/
def truthyOptQ : Option ℚ → Bool
  | Option.none => false
  | Option.some q => decide (q ≠ 0)

/-- Embedding of a Python attribute read `Settings.NAME` where the attribute
may be absent from the class: absence raises `AttributeError`, modelled as
the `Except.error` branch carrying the exception message. -/
def settingsAttr {α : Type} (attr : Option α) (name : String) : Except String α :=
  match attr with
  | Option.some v => Except.ok v
  | Option.none => Except.error ("type object Settings has no attribute " ++ name)

/-- The static configuration attributes that the agents read from
`config.settings.Settings`.  Each field is `Option`-valued: `none` encodes an
attribute that is missing from the `Settings` class (reading it raises
`AttributeError`), except for the two position caps which are plain values
read only through `settingsAttr`-free paths. -/
structure PySettings where
  maxDailyLossPercent : Option ℚ
  maxDrawdownPercent : Option ℚ
  riskPerTradePercent : Option ℚ
  defaultPositionSize : Option ℚ
  paperTrading : Option Bool
  maxOpenPositions : ℕ
  maxPositionsPerInstrument : ℕ

/-- The attributes actually defined by `config/settings.py` of this
repository: it defines `MAX_OPEN_POSITIONS = 10` and
`MAX_POSITIONS_PER_INSTRUMENT = 1`, but none of `MAX_DAILY_LOSS_PERCENT`,
`MAX_DRAWDOWN_PERCENT`, `RISK_PER_TRADE_PERCENT`, `DEFAULT_POSITION_SIZE`,
`PAPER_TRADING` (it has differently named `MAX_DAILY_LOSS = 0.05`,
`MAX_DRAWDOWN = 0.20`, `TRADING_MODE = "paper"` instead), so those reads
raise `AttributeError` at runtime. -/
def repoSettings : PySettings :=
  { maxDailyLossPercent := Option.none
    maxDrawdownPercent := Option.none
    riskPerTradePercent := Option.none
    defaultPositionSize := Option.none
    paperTrading := Option.none
    maxOpenPositions := 10
    maxPositionsPerInstrument := 1 }

/-- A hypothetical settings object on which every attribute the risk and
execution agents read is present, with the values the spec names as defaults
(0.05 daily-loss fraction, 0.20 drawdown fraction, paper mode). -/
def specSettings : PySettings :=
  { maxDailyLossPercent := Option.some (1/20)
    maxDrawdownPercent := Option.some (1/5)
    riskPerTradePercent := Option.some (1/100)
    defaultPositionSize := Option.some (1/100)
    paperTrading := Option.some true
    maxOpenPositions := 10
    maxPositionsPerInstrument := 1 }

/-- Account state returned by `mt5.get_account_info()` as far as the risk
checks read it: `balance`, `equity` and `margin_level`. -/
structure AccountInfo where
  balance : ℚ
  equity : ℚ
  marginLevel : ℚ

def AccountInfo.toPy (a : AccountInfo) : PyVal :=
  PyVal.dict [("balance", PyVal.num a.balance), ("equity", PyVal.num a.equity),
              ("margin_level", PyVal.num a.marginLevel)]

/-- The `proposed_trade` dict built by the Portfolio Manager (plus the
optional `entry_price`/`stop_loss` keys that `_calculate_position_size`
reads with default `0`). -/
structure ProposedTrade where
  instrument : String
  direction : String
  timeframe : String
  confidence : ℚ
  source : String
  entryPrice : Option ℚ
  stopLoss : Option ℚ

def ProposedTrade.toPy (t : ProposedTrade) : PyVal :=
  PyVal.dict [("instrument", PyVal.str t.instrument),
              ("direction", PyVal.str t.direction),
              ("timeframe", PyVal.str t.timeframe),
              ("confidence", PyVal.num t.confidence),
              ("source", PyVal.str t.source)]

namespace PortfolioManager

/-- The Portfolio Manager's environment-derived knobs
(portfolio_manager.py lines 49-64): default timeframe, the
`PM_TRADE_ON_TECH_ALONE` flag, the `PM_MIN_TECH_CONF` threshold and the
optional `PM_TEST_LOT` override. -/
structure Config where
  defaultTf : String
  tradeOnTechAlone : Bool
  minTechConf : ℚ
  testLot : Option ℚ

/-- Default of the `PM_MIN_TECH_CONF` environment knob
(portfolio_manager.py line 53): `0.65`. -/
def defaultMinTechConf : ℚ := 13/20

/-- One research opportunity as the Portfolio Manager reads it:
`symbol` and `timeframe` may be missing or empty, `priority` defaults
to `0.0`. -/
structure Candidate where
  symbol : Option String
  priority : ℚ
  timeframe : Option String

/-- Embedding of `max(opps, key=lambda x: x.get("priority", 0.0))` on a
non-empty list: Python's `max` keeps the earliest element on ties, so a
later candidate replaces the current best only when strictly greater. -/
def topOpportunity (c0 : Candidate) (rest : List Candidate) : Candidate :=
  rest.foldl (fun acc c => if c.priority > acc.priority then c else acc) c0

/-- Embedding of the vote aggregation block (portfolio_manager.py lines
159-170): count `buy` and `sell` among the three recommendations and apply
the majority rule. -/
def aggregateVotes (techRec fundRec sentRec : String) : String × ℚ × String :=
  let votes := [techRec, fundRec, sentRec]
  let buys := votes.count "buy"
  let sells := votes.count "sell"
  if buys > sells ∧ buys ≥ 2 then
    ("buy", 3/5, "Majority voting across agents")
  else if sells > buys ∧ sells ≥ 2 then
    ("sell", 3/5, "Majority voting across agents")
  else
    ("hold", 1/2, "No strong consensus")

/-- Embedding of the tech-only fallback block (portfolio_manager.py lines
172-179): when the aggregated decision is `hold` and the fallback flag is
enabled, a `buy`/`sell` technical recommendation with confidence at or
above the threshold overrides the decision. -/
def applyTechFallback (cfg : Config) (techRec : String) (techConf : ℚ)
    (agg : String × ℚ × String) : String × ℚ × String :=
  if agg.1 = "hold" ∧ cfg.tradeOnTechAlone = true then
    if (techRec = "buy" ∨ techRec = "sell") ∧ techConf ≥ cfg.minTechConf then
      (techRec, techConf, "Tech-only fallback (confidence threshold passed)")
    else agg
  else agg

/-- Embedding of the risk-gate block (portfolio_manager.py lines 181-196):
only a `buy`/`sell` decision is submitted to the risk agent, and any answer
other than `approve` downgrades the decision to `hold`. -/
def applyRiskGate (riskFn : ProposedTrade → AgentResult) (symbol tf : String)
    (d : String × ℚ × String) : String × ℚ × String :=
  if d.1 = "buy" ∨ d.1 = "sell" then
    if (riskFn ⟨symbol, d.1, tf, d.2.1, d.2.2, Option.none, Option.none⟩).recommendation
        ≠ "approve" then
      ("hold", 1/2, "Risk manager veto")
    else d
  else d

/-- Aggregation, tech-only fallback and risk gate composed: the decision
triple `(final, confidence, reason)` as it stands after step 6, before the
execution step runs. -/
def postRiskDecision (cfg : Config) (techRes fundRes sentRes : AgentResult)
    (riskFn : ProposedTrade → AgentResult) (symbol tf : String) :
    String × ℚ × String :=
  applyRiskGate riskFn symbol tf
    (applyTechFallback cfg techRes.recommendation techRes.confidence
      (aggregateVotes techRes.recommendation fundRes.recommendation
        sentRes.recommendation))

/-- The payload the Portfolio Manager sends to the execution agent
(portfolio_manager.py lines 201-203): note its keys are `instrument`,
`action`, `timeframe` (and optionally `lot`). -/
def execPayload (cfg : Config) (symbol action tf : String) : PyVal :=
  match cfg.testLot with
  | Option.some l =>
      PyVal.dict [("instrument", PyVal.str symbol), ("action", PyVal.str action),
                  ("timeframe", PyVal.str tf), ("lot", PyVal.num l)]
  | Option.none =>
      PyVal.dict [("instrument", PyVal.str symbol), ("action", PyVal.str action),
                  ("timeframe", PyVal.str tf)]

/-- Embedding of `(exec_res or {}).get("data", {}).get("order", {}) or {}`
(portfolio_manager.py line 206): the execution result is a fresh dict and
hence truthy, so this looks up the `order` key of its `data` dict, with a
final falsy-to-empty-dict coercion. -/
def tradeDetailsOf (execRes : AgentResult) : PyVal :=
  let order := pyGetD execRes.data "order" (PyVal.dict [])
  if pyTruthy order then order else PyVal.dict []

/-- Outcome of the candidate-selection step (portfolio_manager.py lines
116-141): no opportunities, a top candidate with missing/empty symbol, or a
concrete symbol and timeframe to analyze. -/
inductive Selection where
  | noOpps : Selection
  | invalidCandidate : Selection
  | proceed : String → String → Selection

/-- Embedding of steps 1 and the candidate pick: choose the top opportunity
by priority, resolve the timeframe (`top.get("timeframe") or default`) and
reject a falsy symbol. -/
def selectCandidate (cfg : Config) (opps : List Candidate) : Selection :=
  match opps with
  | [] => Selection.noOpps
  | c :: rest =>
    let top := topOpportunity c rest
    let tf := match top.timeframe with
      | Option.some t => if t = "" then cfg.defaultTf else t
      | Option.none => cfg.defaultTf
    match top.symbol with
    | Option.none => Selection.invalidCandidate
    | Option.some s => if s = "" then Selection.invalidCandidate else Selection.proceed s tf

/-- Embedding of `PortfolioManager.analyze` (portfolio_manager.py lines
113-216).  The sub-agent results and the risk / execution agents' behaviour
are passed in as parameters: `techRes`, `fundRes`, `sentRes` are the results
of steps 2-4, `riskFn` maps the proposed-trade dict to the risk agent's
answer, and `execFn` maps the execution payload to the execution agent's
answer. -/
def analyze (cfg : Config) (opps : List Candidate)
    (techRes fundRes sentRes : AgentResult)
    (riskFn : ProposedTrade → AgentResult)
    (execFn : PyVal → AgentResult) : AgentResult :=
  match selectCandidate cfg opps with
  | Selection.noOpps =>
      format_analysis_result "PortfolioManager" "no_action" (1/2)
        "No trading opportunities identified" (PyVal.dict [])
  | Selection.invalidCandidate =>
      format_analysis_result "PortfolioManager" "no_action" (1/2)
        "Research returned an invalid candidate (missing symbol)" (PyVal.dict [])
  | Selection.proceed symbol tf =>
      let techRec := techRes.recommendation
      let fundRec := fundRes.recommendation
      let sentRec := sentRes.recommendation
      let d := postRiskDecision cfg techRes fundRes sentRes riskFn symbol tf
      let tradeDetails :=
        if d.1 = "buy" ∨ d.1 = "sell" then
          tradeDetailsOf (execFn (execPayload cfg symbol d.1 tf))
        else PyVal.dict []
      format_analysis_result "PortfolioManager"
        (if d.1 = "buy" ∨ d.1 = "sell" then d.1 else "hold") d.2.1 d.2.2
        (PyVal.dict [("symbol", PyVal.str symbol), ("timeframe", PyVal.str tf),
                     ("votes", PyVal.dict [("tech", PyVal.str techRec),
                                           ("fund", PyVal.str fundRec),
                                           ("sent", PyVal.str sentRec)]),
                     ("trade_details", tradeDetails)])

end PortfolioManager

namespace RiskAgent

/-- The boolean risk checks plus the underlying numbers computed by
`RiskAgent._perform_risk_checks` (risk_agent.py lines 115-151). -/
structure RiskChecks where
  sufficientBalance : Bool
  equityCheck : Bool
  marginLevelOk : Bool
  dailyLossOk : Bool
  drawdownOk : Bool
  dailyLoss : ℚ
  maxDailyLoss : ℚ
  drawdown : ℚ

def RiskChecks.toPy (c : RiskChecks) : PyVal :=
  PyVal.dict [("sufficient_balance", PyVal.bool c.sufficientBalance),
              ("equity_check", PyVal.bool c.equityCheck),
              ("margin_level_ok", PyVal.bool c.marginLevelOk),
              ("daily_loss_ok", PyVal.bool c.dailyLossOk),
              ("daily_loss", PyVal.num c.dailyLoss),
              ("max_daily_loss", PyVal.num c.maxDailyLoss),
              ("drawdown", PyVal.num c.drawdown),
              ("drawdown_ok", PyVal.bool c.drawdownOk)]

/-- The position-limit check dict computed by
`RiskAgent._check_position_limits` (risk_agent.py lines 153-172). -/
structure PositionCheck where
  totalPositions : ℕ
  maxPositions : ℕ
  positionsOk : Bool
  instrumentPositions : ℕ
  maxPerInstrument : ℕ
  instrumentOk : Bool

def PositionCheck.toPy (c : PositionCheck) : PyVal :=
  PyVal.dict [("total_positions", PyVal.num c.totalPositions),
              ("max_positions", PyVal.num c.maxPositions),
              ("positions_ok", PyVal.bool c.positionsOk),
              ("instrument_positions", PyVal.num c.instrumentPositions),
              ("max_per_instrument", PyVal.num c.maxPerInstrument),
              ("instrument_ok", PyVal.bool c.instrumentOk)]

/-- The reasoning provider's risk assessment as `RiskAgent.analyze` reads it
(`_analyze_with_llm` always returns a dict, falling back to an `approve`
verdict when the provider is unavailable or errors, so this is total). -/
structure LlmAssessment where
  recommendation : Option String
  confidence : Option ℚ
  reasoning : Option String

def LlmAssessment.toPy (l : LlmAssessment) : PyVal :=
  PyVal.dict
    ((match l.recommendation with
      | Option.some r => [("recommendation", PyVal.str r)]
      | Option.none => []) ++
     (match l.confidence with
      | Option.some c => [("confidence", PyVal.num c)]
      | Option.none => []) ++
     (match l.reasoning with
      | Option.some r => [("reasoning", PyVal.str r)]
      | Option.none => []))

/-- External collaborators of one `RiskAgent.analyze` call: the MT5 account
snapshot, the profits of the deals closed in the last day, the recorded peak
balance, the symbols of the open positions, the reasoning provider's
assessment, the (informational-only) correlation check result, and the
`Settings` attributes. -/
structure Env where
  mt5Account : Option AccountInfo
  closedTradeProfits : List ℚ
  peakBalance : Option ℚ
  openPositionSymbols : List String
  llm : LlmAssessment
  correlation : PyVal
  settings : PySettings

/-- Embedding of `RiskAgent._get_daily_loss` (risk_agent.py lines 243-258):
the absolute value of the negative part of the summed profits of trades
closed in the last day (its own `except` returns `0.0`, and an empty trade
list returns `0.0`). -/
def get_daily_loss (closedTradeProfits : List ℚ) : ℚ :=
  if closedTradeProfits.isEmpty then 0
  else |min closedTradeProfits.sum 0|

/-- The equity check of risk_agent.py line 128: `equity > balance * 0.5`
(a strict inequality — the inline comment reads "at least 50%", but the
operator is `>`). -/
def equity_check_of (acc : AccountInfo) : Bool :=
  decide (acc.equity > acc.balance * (1/2))

/-- Embedding of `RiskAgent._perform_risk_checks` (risk_agent.py lines
115-151).  The read of `Settings.MAX_DAILY_LOSS_PERCENT` (line 136) and, when
a peak balance is on record, of `Settings.MAX_DRAWDOWN_PERCENT` (line 146)
go through `settingsAttr` and raise when the attribute is missing. -/
def perform_risk_checks (acc : AccountInfo) (dailyLoss : ℚ)
    (peakBalance : Option ℚ) (st : PySettings) : Except String RiskChecks :=
  let sufficientBalance := decide (acc.balance > 100)
  let equityCheck := equity_check_of acc
  let marginLevelOk := decide (acc.marginLevel > 200) || decide (acc.marginLevel = 0)
  match settingsAttr st.maxDailyLossPercent "MAX_DAILY_LOSS_PERCENT" with
  | Except.error e => Except.error e
  | Except.ok mdlp =>
    let maxDailyLoss := acc.balance * mdlp
    let dailyLossOk := decide (dailyLoss < maxDailyLoss)
    if truthyOptQ peakBalance then
      let pb := peakBalance.getD 0
      let drawdown := (pb - acc.equity) / pb
      match settingsAttr st.maxDrawdownPercent "MAX_DRAWDOWN_PERCENT" with
      | Except.error e => Except.error e
      | Except.ok mdp =>
        Except.ok { sufficientBalance := sufficientBalance, equityCheck := equityCheck,
                    marginLevelOk := marginLevelOk, dailyLossOk := dailyLossOk,
                    drawdownOk := decide (drawdown < mdp), dailyLoss := dailyLoss,
                    maxDailyLoss := maxDailyLoss, drawdown := drawdown }
    else
      Except.ok { sufficientBalance := sufficientBalance, equityCheck := equityCheck,
                  marginLevelOk := marginLevelOk, dailyLossOk := dailyLossOk,
                  drawdownOk := true, dailyLoss := dailyLoss,
                  maxDailyLoss := maxDailyLoss, drawdown := 0 }

/-- Embedding of `RiskAgent._check_position_limits` (risk_agent.py lines
153-172): both caps are attributes that do exist on `Settings`. -/
def check_position_limits (st : PySettings) (openPositionSymbols : List String)
    (trade : ProposedTrade) : PositionCheck :=
  let total := openPositionSymbols.length
  let instCount := (openPositionSymbols.filter (fun s => s == trade.instrument)).length
  { totalPositions := total, maxPositions := st.maxOpenPositions,
    positionsOk := decide (total < st.maxOpenPositions),
    instrumentPositions := instCount, maxPerInstrument := st.maxPositionsPerInstrument,
    instrumentOk := decide (instCount < st.maxPositionsPerInstrument) }

/-- Embedding of `RiskAgent._calculate_position_size` (risk_agent.py lines
201-241).  Its body reads `Settings.RISK_PER_TRADE_PERCENT` and (on the
default-size paths) `Settings.DEFAULT_POSITION_SIZE`; its own `except`
handler returns `Settings.DEFAULT_POSITION_SIZE`, which re-raises when that
attribute is itself missing. -/
def calculate_position_size (st : PySettings) (acc : AccountInfo)
    (trade : ProposedTrade) : Except String ℚ :=
  let body : Except String ℚ :=
    match settingsAttr st.riskPerTradePercent "RISK_PER_TRADE_PERCENT" with
    | Except.error e => Except.error e
    | Except.ok riskPercent =>
      let _riskAmount := acc.balance * riskPercent
      let entryPrice := trade.entryPrice.getD 0
      let stopLoss := trade.stopLoss.getD 0
      if entryPrice = 0 ∨ stopLoss = 0 then
        settingsAttr st.defaultPositionSize "DEFAULT_POSITION_SIZE"
      else
        let slDistance := |entryPrice - stopLoss|
        if slDistance = 0 then settingsAttr st.defaultPositionSize "DEFAULT_POSITION_SIZE"
        else settingsAttr st.defaultPositionSize "DEFAULT_POSITION_SIZE"
  match body with
  | Except.ok v => Except.ok v
  | Except.error _ => settingsAttr st.defaultPositionSize "DEFAULT_POSITION_SIZE"

/-- Embedding of `RiskAgent._should_proceed` (risk_agent.py lines 260-302):
the sequence of early-return checks — the seven hard booleans, then the
reasoning provider's explicit `reject`. -/
def should_proceed (rc : RiskChecks) (pc : PositionCheck)
    (llmRec : Option String) : Bool :=
  if rc.sufficientBalance = false then false
  else if rc.equityCheck = false then false
  else if rc.marginLevelOk = false then false
  else if rc.dailyLossOk = false then false
  else if rc.drawdownOk = false then false
  else if pc.positionsOk = false then false
  else if pc.instrumentOk = false then false
  else if strLower (llmRec.getD "") = "reject" then false
  else true

/-- Embedding of the body of `RiskAgent.analyze` (risk_agent.py lines 32-104,
the code inside the `try`).  `proposedTrade`/`accountInfoIn` model
`data.get('proposed_trade', {})` and `data.get('account_info')` with Python
falsiness folded into `Option`.  A raised `AttributeError` from the settings
reads surfaces as the `Except.error` branch. -/
def analyzeBody (env : Env) (proposedTrade : Option ProposedTrade)
    (accountInfoIn : Option AccountInfo) : Except String AgentResult :=
  match proposedTrade with
  | Option.none =>
      Except.ok (format_analysis_result "RiskAgent" "error" 0
        "No proposed trade provided" (PyVal.dict []))
  | Option.some trade =>
    match (match accountInfoIn with
           | Option.some a => Option.some a
           | Option.none => env.mt5Account) with
    | Option.none =>
        Except.ok (format_analysis_result "RiskAgent" "error" 0
          "Unable to get account information" (PyVal.dict []))
    | Option.some acc =>
      match perform_risk_checks acc (get_daily_loss env.closedTradeProfits)
              env.peakBalance env.settings with
      | Except.error e => Except.error e
      | Except.ok riskChecks =>
        let positionCheck := check_position_limits env.settings env.openPositionSymbols trade
        let correlationRisk := env.correlation
        match calculate_position_size env.settings acc trade with
        | Except.error e => Except.error e
        | Except.ok positionSize =>
          let llmAnalysis := env.llm
          let proceed := should_proceed riskChecks positionCheck llmAnalysis.recommendation
          let recommendation := if proceed then "approve" else "reject"
          let confidence := llmAnalysis.confidence.getD (7/10)
          Except.ok (format_analysis_result "RiskAgent" recommendation confidence
            (llmAnalysis.reasoning.getD "Risk analysis completed")
            (PyVal.dict [("proposed_trade", trade.toPy),
                         ("risk_checks", riskChecks.toPy),
                         ("position_check", positionCheck.toPy),
                         ("correlation_risk", correlationRisk),
                         ("calculated_position_size", PyVal.num positionSize),
                         ("account_info", acc.toPy),
                         ("llm_analysis", llmAnalysis.toPy)]))

/-- Embedding of the `except` handler of `RiskAgent.analyze` (risk_agent.py
lines 106-113): an exception escaping the body is converted into a `reject`
with confidence `1.0` and the exception message in the reasoning. -/
def analyzeCatch (body : Except String AgentResult) : AgentResult :=
  match body with
  | Except.ok r => r
  | Except.error e =>
      format_analysis_result "RiskAgent" "reject" 1
        ("Error during risk analysis: " ++ e) (PyVal.dict [])

/-- Embedding of `RiskAgent.analyze`: the body guarded by the catch-all
handler. -/
def analyze (env : Env) (proposedTrade : Option ProposedTrade)
    (accountInfoIn : Option AccountInfo) : AgentResult :=
  analyzeCatch (analyzeBody env proposedTrade accountInfoIn)

end RiskAgent

namespace ExecutionAgent

/-- Bid/ask quote returned by `mt5.get_symbol_info`. -/
structure SymbolInfo where
  ask : ℚ
  bid : ℚ

/-- Result object of `mt5.order_send`. -/
structure OrderSendResult where
  retcode : ℤ
  comment : String
  price : ℚ
  order : ℕ

/-- The MetaTrader5 library constant `TRADE_RETCODE_DONE`. -/
def tradeRetcodeDone : ℤ := 10009

/-- External collaborators of one `ExecutionAgent.analyze` call: the
`Settings` attributes, the MT5 connection health, the symbol-info lookup
result for the traded instrument, the broker's `order_send` answer (absent
models the call returning `None`), and the `random.randint` draw used for
paper tickets. -/
structure Env where
  settings : PySettings
  ensureConnection : Bool
  symbolInfo : Option SymbolInfo
  orderSend : Option OrderSendResult
  randTicket : ℕ

/-- Embedding of `.lower()` on a value expected to be a string: a non-string
raises `AttributeError`. -/
def pyLower (v : PyVal) : Except String String :=
  match v with
  | PyVal.str s => Except.ok (strLower s)
  | _ => Except.error "object has no attribute lower"

/-- Embedding of the body of `ExecutionAgent._execute_paper_trade`
(execution_agent.py lines 158-204, inside its `try`).  Note that
`trade_decision.get('volume', Settings.DEFAULT_POSITION_SIZE)` evaluates the
default eagerly, so the missing `DEFAULT_POSITION_SIZE` attribute raises
regardless of whether a `volume` key is present. -/
def executePaperTradeBody (env : Env) (tradeDecision : PyVal) :
    Except String AgentResult :=
  let instrument := pyGetD tradeDecision "instrument" PyVal.none
  match pyLower (pyGetD tradeDecision "action" (PyVal.str "buy")) with
  | Except.error e => Except.error e
  | Except.ok action =>
    match settingsAttr env.settings.defaultPositionSize "DEFAULT_POSITION_SIZE" with
    | Except.error e => Except.error e
    | Except.ok dps =>
      let volume := pyGetD tradeDecision "volume" (PyVal.num dps)
      let stopLoss := pyGetD tradeDecision "stop_loss" PyVal.none
      let takeProfit := pyGetD tradeDecision "take_profit" PyVal.none
      let price := match env.symbolInfo with
        | Option.none => (0 : ℚ)
        | Option.some si => if action = "buy" then si.ask else si.bid
      let ticket := env.randTicket
      Except.ok (format_analysis_result "ExecutionAgent" "executed_paper" 1
        "Paper trade executed successfully"
        (PyVal.dict [("ticket", PyVal.num ticket), ("instrument", instrument),
                     ("action", PyVal.str action), ("volume", volume),
                     ("price", PyVal.num price), ("stop_loss", stopLoss),
                     ("take_profit", takeProfit), ("paper_trade", PyVal.bool true)]))

/-- Embedding of `ExecutionAgent._execute_paper_trade` with its own
`except` handler (execution_agent.py lines 206-213). -/
def executePaperTrade (env : Env) (tradeDecision : PyVal) : AgentResult :=
  match executePaperTradeBody env tradeDecision with
  | Except.ok r => r
  | Except.error e =>
      format_analysis_result "ExecutionAgent" "error" 0 ("Error: " ++ e) (PyVal.dict [])

/-- Embedding of the body of `ExecutionAgent._execute_live_trade`
(execution_agent.py lines 58-145, inside its `try`). -/
def executeLiveTradeBody (env : Env) (tradeDecision : PyVal) :
    Except String AgentResult :=
  if env.ensureConnection = false then
    Except.ok (format_analysis_result "ExecutionAgent" "failed" 0
      "MT5 connection failed" (PyVal.dict []))
  else
    let instrument := pyGetD tradeDecision "instrument" PyVal.none
    match pyLower (pyGetD tradeDecision "action" (PyVal.str "buy")) with
    | Except.error e => Except.error e
    | Except.ok action =>
      match settingsAttr env.settings.defaultPositionSize "DEFAULT_POSITION_SIZE" with
      | Except.error e => Except.error e
      | Except.ok dps =>
        let volume := pyGetD tradeDecision "volume" (PyVal.num dps)
        let stopLoss := pyGetD tradeDecision "stop_loss" PyVal.none
        let takeProfit := pyGetD tradeDecision "take_profit" PyVal.none
        match env.symbolInfo with
        | Option.none =>
            Except.ok (format_analysis_result "ExecutionAgent" "failed" 0
              "Symbol not found" (PyVal.dict []))
        | Option.some si =>
          let price := if action = "buy" then si.ask else si.bid
          match env.orderSend with
          | Option.none => Except.error "NoneType object has no attribute retcode"
          | Option.some res =>
            if res.retcode ≠ tradeRetcodeDone then
              Except.ok (format_analysis_result "ExecutionAgent" "failed" 0
                ("Trade execution failed: " ++ res.comment) (PyVal.dict []))
            else
              Except.ok (format_analysis_result "ExecutionAgent" "executed" 1
                "Trade executed successfully"
                (PyVal.dict [("ticket", PyVal.num res.order), ("instrument", instrument),
                             ("action", PyVal.str action), ("volume", volume),
                             ("price", PyVal.num res.price), ("stop_loss", stopLoss),
                             ("take_profit", takeProfit),
                             ("order_price_requested", PyVal.num price)]))

/-- Embedding of `ExecutionAgent._execute_live_trade` with its own `except`
handler (execution_agent.py lines 147-154). -/
def executeLiveTrade (env : Env) (tradeDecision : PyVal) : AgentResult :=
  match executeLiveTradeBody env tradeDecision with
  | Except.ok r => r
  | Except.error e =>
      format_analysis_result "ExecutionAgent" "error" 0 ("Error: " ++ e) (PyVal.dict [])

/-- Embedding of the body of `ExecutionAgent.analyze` (execution_agent.py
lines 30-45): the input dict is read at key `trade_decision`; when that is
missing or falsy the agent returns an error result, otherwise it reads
`Settings.PAPER_TRADING` (raising when the attribute is absent, as it is in
this repository's `config/settings.py`) and dispatches. -/
def analyzeBody (env : Env) (data : PyVal) : Except String AgentResult :=
  let tradeDecision := pyGetD data "trade_decision" (PyVal.dict [])
  if pyTruthy tradeDecision = false then
    Except.ok (format_analysis_result "ExecutionAgent" "error" 0
      "No trade decision provided" (PyVal.dict []))
  else
    match settingsAttr env.settings.paperTrading "PAPER_TRADING" with
    | Except.error e => Except.error e
    | Except.ok paper =>
      if paper then Except.ok (executePaperTrade env tradeDecision)
      else Except.ok (executeLiveTrade env tradeDecision)

/-- Embedding of the `except` handler of `ExecutionAgent.analyze`
(execution_agent.py lines 47-54). -/
def analyzeCatch (body : Except String AgentResult) : AgentResult :=
  match body with
  | Except.ok r => r
  | Except.error e =>
      format_analysis_result "ExecutionAgent" "error" 0
        ("Error during trade execution: " ++ e) (PyVal.dict [])

/-- Embedding of `ExecutionAgent.analyze`. -/
def analyze (env : Env) (data : PyVal) : AgentResult :=
  analyzeCatch (analyzeBody env data)

end ExecutionAgent

namespace TechnicalAgent

/-- The reasoning provider's technical analysis as
`TechnicalAgent._determine_recommendation` reads it. -/
structure LlmAnalysis where
  recommendation : Option String
  confidence : Option ℚ

/-- Substring test embedding Python's `pat in s` on strings. -/
def strContains (s pat : String) : Bool :=
  s.data.tails.any (fun t => pat.data.isPrefixOf t)

/-- Embedding of `TechnicalAgent._determine_recommendation`
(technical_agent.py lines 215-236): adopt the provider's recommendation when
it is one of buy/sell/hold with confidence at least `0.6`; otherwise fall
back to the locally computed overall signal (`'bullish' in s` → buy at 0.6,
`'bearish' in s` → sell at 0.6, else hold at 0.5).  `overallSignal` models
`signals.get('overall', 'neutral')`. -/
def determine_recommendation (overallSignal : Option String)
    (llm : LlmAnalysis) : String × ℚ :=
  if (strLower (llm.recommendation.getD "") = "buy" ∨
      strLower (llm.recommendation.getD "") = "sell" ∨
      strLower (llm.recommendation.getD "") = "hold") ∧
      llm.confidence.getD 0 ≥ 3/5 then
    (strLower (llm.recommendation.getD ""), llm.confidence.getD 0)
  else if strContains (strLower (overallSignal.getD "neutral")) "bullish" then
    ("buy", 3/5)
  else if strContains (strLower (overallSignal.getD "neutral")) "bearish" then
    ("sell", 3/5)
  else
    ("hold", 1/2)

/-- Embedding of the `except` handler of `TechnicalAgent.analyze`
(technical_agent.py lines 95-102): any exception escaping the body becomes
an `error` result with confidence `0` whose reasoning reports the exception
message. -/
def analyzeCatch (body : Except String AgentResult) : AgentResult :=
  match body with
  | Except.ok r => r
  | Except.error e =>
      format_analysis_result "TechnicalAgent" "error" 0
        ("Error during technical analysis: " ++ e) (PyVal.dict [])

end TechnicalAgent

namespace FundamentalAgent

/-- Embedding of the `except` handler of `FundamentalAgent.analyze`
(fundamental_agent.py lines 69-76). -/
def analyzeCatch (body : Except String AgentResult) : AgentResult :=
  match body with
  | Except.ok r => r
  | Except.error e =>
      format_analysis_result "FundamentalAgent" "error" 0
        ("Error during fundamental analysis: " ++ e) (PyVal.dict [])

end FundamentalAgent

namespace SentimentAgent

/-- Embedding of the `except` handler of `SentimentAgent.analyze`
(sentiment_agent.py lines 89-96). -/
def analyzeCatch (body : Except String AgentResult) : AgentResult :=
  match body with
  | Except.ok r => r
  | Except.error e =>
      format_analysis_result "SentimentAgent" "error" 0
        ("Error during sentiment analysis: " ++ e) (PyVal.dict [])

end SentimentAgent

/-- The recommendation values an analysis agent can hand to the aggregator:
`buy`, `sell`, `hold`, `error`, `insufficient_data`. -/
inductive VoteRec where
  | buy : VoteRec
  | sell : VoteRec
  | hold : VoteRec
  | error : VoteRec
  | insufficientData : VoteRec
deriving DecidableEq, Fintype

/-- The recommendation string carried by each `VoteRec` value. -/
def VoteRec.toRecStr : VoteRec → String
  | VoteRec.buy => "buy"
  | VoteRec.sell => "sell"
  | VoteRec.hold => "hold"
  | VoteRec.error => "error"
  | VoteRec.insufficientData => "insufficient_data"

/-- Account snapshot of the end-to-end scenario: balance 10000, equity
10000, margin level 0 — it satisfies the balance, equity and margin checks
of `RiskAgent._perform_risk_checks`, and with no closed losses, no peak
balance on record and no open positions every remaining check would pass as
well. -/
def scenarioAccount : AccountInfo := ⟨10000, 10000, 0⟩

/-- A reasoning-provider risk assessment that explicitly approves. -/
def scenarioLlmApprove : RiskAgent.LlmAssessment :=
  ⟨Option.some "approve", Option.some (7/10), Option.some "Risk acceptable"⟩

/-- Risk-agent environment of the end-to-end scenario, running against the
attributes this repository's `config/settings.py` actually defines
(`repoSettings`). -/
def scenarioRiskEnv : RiskAgent.Env :=
  { mt5Account := Option.some scenarioAccount
    closedTradeProfits := []
    peakBalance := Option.none
    openPositionSymbols := []
    llm := scenarioLlmApprove
    correlation := PyVal.dict [("risk", PyVal.str "none"),
                               ("message", PyVal.str "No open positions")]
    settings := repoSettings }

/-- Portfolio Manager configuration of the end-to-end scenario: default
timeframe H1, tech-alone fallback disabled, threshold 0.65, no lot
override. -/
def scenarioCfg : PortfolioManager.Config := ⟨"H1", false, 13/20, Option.none⟩

/-- Research output of the end-to-end scenario: exactly one admitted
candidate, EURUSD/H1 with priority 0.02. -/
def scenarioOpps : List PortfolioManager.Candidate :=
  [⟨Option.some "EURUSD", 1/50, Option.some "H1"⟩]

/-- Technical agent result of the end-to-end scenario: buy at 0.8. -/
def scenarioTech : AgentResult :=
  format_analysis_result "TechnicalAgent" "buy" (4/5)
    "Technical analysis completed" (PyVal.dict [])

/-- Fundamental agent result of the end-to-end scenario: hold at 0.5. -/
def scenarioFund : AgentResult :=
  format_analysis_result "FundamentalAgent" "hold" (1/2)
    "Fundamental analysis completed" (PyVal.dict [])

/-- Sentiment agent result of the end-to-end scenario: buy at 0.6. -/
def scenarioSent : AgentResult :=
  format_analysis_result "SentimentAgent" "buy" (3/5)
    "Sentiment analysis completed" (PyVal.dict [])

/-- Execution-agent environment of the end-to-end scenario: healthy
connection, a EURUSD quote, and the repository's actual `Settings`
attributes. -/
def scenarioExecEnv : ExecutionAgent.Env :=
  { settings := repoSettings
    ensureConnection := true
    symbolInfo := Option.some ⟨27/25, 107/100⟩
    orderSend := Option.none
    randTicket := 123456 }

/-- Execution-agent environment identical to `scenarioExecEnv` except that
every `Settings` attribute the agent reads exists (paper mode enabled), as
the spec assumes. -/
def specExecEnv : ExecutionAgent.Env :=
  { settings := specSettings
    ensureConnection := true
    symbolInfo := Option.some ⟨27/25, 107/100⟩
    orderSend := Option.none
    randTicket := 123456 }

/-- The risk gate as the Portfolio Manager wires it in the scenario: the
risk agent is called with the proposed trade only (no `account_info`
key). -/
def scenarioRiskFn : ProposedTrade → AgentResult :=
  fun t => RiskAgent.analyze scenarioRiskEnv (Option.some t) Option.none

/-- The execution handoff as the Portfolio Manager wires it in the
scenario. -/
def scenarioExecFn : PyVal → AgentResult :=
  fun payload => ExecutionAgent.analyze scenarioExecEnv payload

/-- The five vote strings are pairwise distinct, so `toRecStr` is
injective. -/
lemma toRecStr_injective : Function.Injective VoteRec.toRecStr := by
  intro a b h
  cases a <;> cases b <;> first | rfl | exact absurd h (by decide)

/-- Counting `buy` votes over the recommendation strings agrees with
counting over the abstract vote values. -/
lemma count_buy_eq (t f s : VoteRec) :
    [t.toRecStr, f.toRecStr, s.toRecStr].count "buy" = [t, f, s].count VoteRec.buy := by
  simpa using
    List.count_map_of_injective [t, f, s] VoteRec.toRecStr toRecStr_injective VoteRec.buy

/-- Counting `sell` votes over the recommendation strings agrees with
counting over the abstract vote values. -/
lemma count_sell_eq (t f s : VoteRec) :
    [t.toRecStr, f.toRecStr, s.toRecStr].count "sell" = [t, f, s].count VoteRec.sell := by
  simpa using
    List.count_map_of_injective [t, f, s] VoteRec.toRecStr toRecStr_injective VoteRec.sell

/-- Claim C2: over every triple of recommendations drawn from
{buy, sell, hold, error, insufficient_data}, the Portfolio Manager's vote
aggregation yields buy at confidence 0.6 iff buy-count ≥ 2 and
buy-count > sell-count, sell at 0.6 iff the symmetric condition holds, and
hold at confidence 0.5 otherwise; hold/error/insufficient_data votes count
toward neither side. -/
theorem C2_aggregation_majority_rule :
    ∀ t f s : VoteRec,
      (PortfolioManager.aggregateVotes t.toRecStr f.toRecStr s.toRecStr =
          ("buy", 3/5, "Majority voting across agents") ↔
        (2 ≤ [t, f, s].count VoteRec.buy ∧
          [t, f, s].count VoteRec.sell < [t, f, s].count VoteRec.buy)) ∧
      (PortfolioManager.aggregateVotes t.toRecStr f.toRecStr s.toRecStr =
          ("sell", 3/5, "Majority voting across agents") ↔
        (2 ≤ [t, f, s].count VoteRec.sell ∧
          [t, f, s].count VoteRec.buy < [t, f, s].count VoteRec.sell)) ∧
      (PortfolioManager.aggregateVotes t.toRecStr f.toRecStr s.toRecStr =
          ("hold", 1/2, "No strong consensus") ↔
        (¬(2 ≤ [t, f, s].count VoteRec.buy ∧
            [t, f, s].count VoteRec.sell < [t, f, s].count VoteRec.buy) ∧
          ¬(2 ≤ [t, f, s].count VoteRec.sell ∧
            [t, f, s].count VoteRec.buy < [t, f, s].count VoteRec.sell))) := by
  intro t f s
  rw [← count_buy_eq t f s, ← count_sell_eq t f s]
  generalize t.toRecStr = a
  generalize f.toRecStr = b
  generalize s.toRecStr = c
  unfold PortfolioManager.aggregateVotes
  by_cases h1 : [a, b, c].count "buy" > [a, b, c].count "sell" ∧
      [a, b, c].count "buy" ≥ 2
  · rw [if_pos h1]
    refine ⟨⟨fun _ => ⟨h1.2, h1.1⟩, fun _ => rfl⟩, ?_, ?_⟩
    · constructor
      · intro h
        exact absurd (congrArg Prod.fst h) (by decide)
      · intro h
        omega
    · constructor
      · intro h
        exact absurd (congrArg Prod.fst h) (by decide)
      · intro h
        exact absurd ⟨h1.2, h1.1⟩ h.1
  · rw [if_neg h1]
    by_cases h2 : [a, b, c].count "sell" > [a, b, c].count "buy" ∧
        [a, b, c].count "sell" ≥ 2
    · rw [if_pos h2]
      refine ⟨?_, ⟨fun _ => ⟨h2.2, h2.1⟩, fun _ => rfl⟩, ?_⟩
      · constructor
        · intro h
          exact absurd (congrArg Prod.fst h) (by decide)
        · intro h
          omega
      · constructor
        · intro h
          exact absurd (congrArg Prod.fst h) (by decide)
        · intro h
          exact absurd ⟨h2.2, h2.1⟩ h.2
    · rw [if_neg h2]
      refine ⟨?_, ?_, ⟨fun _ => ⟨fun h => h1 ⟨h.2, h.1⟩, fun h => h2 ⟨h.2, h.1⟩⟩,
        fun _ => rfl⟩⟩
      · constructor
        · intro h
          exact absurd (congrArg Prod.fst h) (by decide)
        · intro h
          exact absurd ⟨h.2, h.1⟩ h1
      · constructor
        · intro h
          exact absurd (congrArg Prod.fst h) (by decide)
        · intro h
          exact absurd ⟨h.2, h.1⟩ h2

/-- Witness for C2 at a concrete triple: (buy, buy, sell) aggregates to buy
at confidence 0.6. -/
theorem C2_aggregation_majority_rule_witness :
    PortfolioManager.aggregateVotes "buy" "buy" "sell" =
      ("buy", 3/5, "Majority voting across agents") :=
  (C2_aggregation_majority_rule VoteRec.buy VoteRec.buy VoteRec.sell).1.mpr
    (by decide)

/-- Claim C3: when the aggregated decision is hold, the tech-alone fallback
flag is enabled, the technical recommendation is buy or sell and the
technical confidence reaches the threshold (default 0.65), the pre-risk
decision becomes the technical direction at the technical confidence; a
disabled flag or a below-threshold confidence leaves the decision unchanged
(so a hold stays hold), and the fallback never changes a decision that
majority voting already set to buy or sell. -/
theorem C3_tech_fallback_gating (cfg : PortfolioManager.Config)
    (techRec : String) (techConf : ℚ) (agg : String × ℚ × String) :
    ((agg.1 = "hold" → cfg.tradeOnTechAlone = true →
        (techRec = "buy" ∨ techRec = "sell") → techConf ≥ cfg.minTechConf →
        PortfolioManager.applyTechFallback cfg techRec techConf agg =
          (techRec, techConf, "Tech-only fallback (confidence threshold passed)")) ∧
      (cfg.tradeOnTechAlone = false →
        PortfolioManager.applyTechFallback cfg techRec techConf agg = agg) ∧
      (techConf < cfg.minTechConf →
        PortfolioManager.applyTechFallback cfg techRec techConf agg = agg) ∧
      ((agg.1 = "buy" ∨ agg.1 = "sell") →
        PortfolioManager.applyTechFallback cfg techRec techConf agg = agg)) ∧
    PortfolioManager.defaultMinTechConf = 13/20 := by
  refine ⟨⟨?_, ?_, ?_, ?_⟩, rfl⟩
  · intro h1 h2 h3 h4
    unfold PortfolioManager.applyTechFallback
    rw [if_pos ⟨h1, h2⟩, if_pos ⟨h3, h4⟩]
  · intro h
    unfold PortfolioManager.applyTechFallback
    split
    · next hc => exact absurd hc.2 (by simp [h])
    · rfl
  · intro h
    unfold PortfolioManager.applyTechFallback
    split
    · split
      · next hc => exact absurd hc.2 (by exact not_le.mpr h)
      · rfl
    · rfl
  · intro h
    unfold PortfolioManager.applyTechFallback
    split
    · next hc =>
        rcases h with h | h <;> rw [h] at hc <;> exact absurd hc.1 (by decide)
    · rfl

/-- Witness for C3 at concrete inputs: with the fallback enabled at
threshold 0.65, a hold aggregation and a technical buy at 0.70 becomes a buy
at 0.70. -/
theorem C3_tech_fallback_gating_witness :
    PortfolioManager.applyTechFallback ⟨"H1", true, 13/20, Option.none⟩ "buy" (7/10)
        ("hold", 1/2, "No strong consensus") =
      ("buy", 7/10, "Tech-only fallback (confidence threshold passed)") :=
  (C3_tech_fallback_gating ⟨"H1", true, 13/20, Option.none⟩ "buy" (7/10)
      ("hold", 1/2, "No strong consensus")).1.1 rfl rfl (Or.inl rfl) (by norm_num)

/-- Claim C5: `RiskAgent._should_proceed` is conjunctive over the seven hard
checks plus the reasoning provider's explicit reject: any single failing
hard check forces `reject` regardless of the others, and flipping a single
failing hard check to passing (all other inputs fixed) can turn reject into
approve only when it was the sole failing hard check. -/
theorem C5_should_proceed_conjunctive (rc : RiskAgent.RiskChecks)
    (pc : RiskAgent.PositionCheck) (llmRec : Option String) :
    ((rc.sufficientBalance = false ∨ rc.equityCheck = false ∨
        rc.marginLevelOk = false ∨ rc.dailyLossOk = false ∨
        rc.drawdownOk = false ∨ pc.positionsOk = false ∨
        pc.instrumentOk = false) →
      RiskAgent.should_proceed rc pc llmRec = false) ∧
    (rc.sufficientBalance = false →
      RiskAgent.should_proceed {rc with sufficientBalance := true} pc llmRec = true →
      rc.equityCheck = true ∧ rc.marginLevelOk = true ∧ rc.dailyLossOk = true ∧
        rc.drawdownOk = true ∧ pc.positionsOk = true ∧ pc.instrumentOk = true) ∧
    (rc.equityCheck = false →
      RiskAgent.should_proceed {rc with equityCheck := true} pc llmRec = true →
      rc.sufficientBalance = true ∧ rc.marginLevelOk = true ∧ rc.dailyLossOk = true ∧
        rc.drawdownOk = true ∧ pc.positionsOk = true ∧ pc.instrumentOk = true) ∧
    (rc.marginLevelOk = false →
      RiskAgent.should_proceed {rc with marginLevelOk := true} pc llmRec = true →
      rc.sufficientBalance = true ∧ rc.equityCheck = true ∧ rc.dailyLossOk = true ∧
        rc.drawdownOk = true ∧ pc.positionsOk = true ∧ pc.instrumentOk = true) ∧
    (rc.dailyLossOk = false →
      RiskAgent.should_proceed {rc with dailyLossOk := true} pc llmRec = true →
      rc.sufficientBalance = true ∧ rc.equityCheck = true ∧ rc.marginLevelOk = true ∧
        rc.drawdownOk = true ∧ pc.positionsOk = true ∧ pc.instrumentOk = true) ∧
    (rc.drawdownOk = false →
      RiskAgent.should_proceed {rc with drawdownOk := true} pc llmRec = true →
      rc.sufficientBalance = true ∧ rc.equityCheck = true ∧ rc.marginLevelOk = true ∧
        rc.dailyLossOk = true ∧ pc.positionsOk = true ∧ pc.instrumentOk = true) ∧
    (pc.positionsOk = false →
      RiskAgent.should_proceed rc {pc with positionsOk := true} llmRec = true →
      rc.sufficientBalance = true ∧ rc.equityCheck = true ∧ rc.marginLevelOk = true ∧
        rc.dailyLossOk = true ∧ rc.drawdownOk = true ∧ pc.instrumentOk = true) ∧
    (pc.instrumentOk = false →
      RiskAgent.should_proceed rc {pc with instrumentOk := true} llmRec = true →
      rc.sufficientBalance = true ∧ rc.equityCheck = true ∧ rc.marginLevelOk = true ∧
        rc.dailyLossOk = true ∧ rc.drawdownOk = true ∧ pc.positionsOk = true) := by
  obtain ⟨b1, b2, b3, b4, b5, q1, q2, q3⟩ := rc
  obtain ⟨n1, n2, p1, n3, n4, p2⟩ := pc
  cases b1 <;> cases b2 <;> cases b3 <;> cases b4 <;> cases b5 <;> cases p1 <;>
    cases p2 <;> simp [RiskAgent.should_proceed]

/-- Witness for C5 at concrete inputs: with only the balance check failing
and an approving provider, the gate rejects. -/
theorem C5_should_proceed_conjunctive_witness :
    RiskAgent.should_proceed ⟨false, true, true, true, true, 0, 5, 0⟩
      ⟨0, 10, true, 0, 1, true⟩ (Option.some "approve") = false :=
  (C5_should_proceed_conjunctive ⟨false, true, true, true, true, 0, 5, 0⟩
    ⟨0, 10, true, 0, 1, true⟩ (Option.some "approve")).1 (Or.inl rfl)

/-- In any successful run of `RiskAgent._perform_risk_checks`, the
`equity_check` entry is exactly the line-128 comparison
`equity > balance * 0.5`. -/
lemma perform_risk_checks_equity (acc : AccountInfo) (dl : ℚ) (pb : Option ℚ)
    (st : PySettings) (c : RiskAgent.RiskChecks)
    (hc : RiskAgent.perform_risk_checks acc dl pb st = Except.ok c) :
    c.equityCheck = RiskAgent.equity_check_of acc := by
  unfold RiskAgent.perform_risk_checks at hc
  split at hc
  · exact absurd hc (by simp)
  · split at hc
    · split at hc
      · exact absurd hc (by simp)
      · injection hc with h
        subst h
        rfl
    · injection hc with h
      subst h
      rfl

/-- Claim C6 (amended): the Risk Gate's equity check passes exactly when
equity is strictly greater than half the balance; when equity equals
exactly half of the balance the check fails. -/
theorem C6_equity_check_strict (acc : AccountInfo) (dl : ℚ) (pb : Option ℚ)
    (st : PySettings) (c : RiskAgent.RiskChecks)
    (hc : RiskAgent.perform_risk_checks acc dl pb st = Except.ok c) :
    (c.equityCheck = true ↔ acc.equity > acc.balance * (1/2)) ∧
    (acc.equity = acc.balance * (1/2) → c.equityCheck = false) := by
  rw [perform_risk_checks_equity acc dl pb st c hc]
  unfold RiskAgent.equity_check_of
  constructor
  · simp
  · intro h
    simp [h]

/-- Counterexample to C6 as stated: at balance 200 and equity 100 the
account has equity equal to exactly half of the balance (so the claim says
the check passes), but the computed `equity_check` entry is `false`. -/
theorem C6_counterexample_equality_fails :
    RiskAgent.perform_risk_checks ⟨200, 100, 0⟩ 0 Option.none specSettings =
      Except.ok ⟨true, false, true, true, true, 0, 10, 0⟩ ∧
    RiskAgent.equity_check_of ⟨200, 100, 0⟩ = false ∧
    ((100 : ℚ) ≥ (1/2) * 200) := by
  refine ⟨?_, ?_, by norm_num⟩
  · unfold RiskAgent.perform_risk_checks
    norm_num [specSettings, settingsAttr, truthyOptQ, RiskAgent.equity_check_of]
  · unfold RiskAgent.equity_check_of
    norm_num

/-- Witness for C6 at concrete inputs: at balance 200 and equity 101 the
check passes, and the strict characterization applies. -/
theorem C6_equity_check_strict_witness :
    RiskAgent.perform_risk_checks ⟨200, 101, 0⟩ 0 Option.none specSettings =
      Except.ok ⟨true, true, true, true, true, 0, 10, 0⟩ ∧
    ((101 : ℚ) > 200 * (1/2)) := by
  have hc : RiskAgent.perform_risk_checks ⟨200, 101, 0⟩ 0 Option.none specSettings =
      Except.ok ⟨true, true, true, true, true, 0, 10, 0⟩ := by
    unfold RiskAgent.perform_risk_checks
    norm_num [specSettings, settingsAttr, truthyOptQ, RiskAgent.equity_check_of]
  exact ⟨hc, (C6_equity_check_strict ⟨200, 101, 0⟩ 0 Option.none specSettings
    ⟨true, true, true, true, true, 0, 10, 0⟩ hc).1.mp rfl⟩

/-- Counterexample to C4 as stated: on an input with no proposed trade the
Risk Agent's `analyze` returns recommendation `error`, which is neither
`approve` nor `reject`. -/
theorem C4_counterexample_error_recommendation :
    (RiskAgent.analyze scenarioRiskEnv Option.none Option.none).recommendation =
      "error" ∧
    ("error" : String) ≠ "approve" ∧ ("error" : String) ≠ "reject" :=
  ⟨rfl, by decide, by decide⟩

/-- Claim C4 (amended): the Risk Agent's `analyze` always returns a
recommendation in {approve, reject, error} (`error` when the proposed trade
or the account information is unavailable); the Portfolio Manager's risk
gate leaves a non-directional decision untouched without consulting the risk
agent, downgrades any buy/sell with a non-`approve` answer to hold at 0.5
with reason "Risk manager veto", and never turns a hold into a buy or
sell. -/
theorem C4_risk_gate_range_and_veto :
    (∀ (env : RiskAgent.Env) (pt : Option ProposedTrade) (acc : Option AccountInfo),
      (RiskAgent.analyze env pt acc).recommendation = "approve" ∨
      (RiskAgent.analyze env pt acc).recommendation = "reject" ∨
      (RiskAgent.analyze env pt acc).recommendation = "error") ∧
    (∀ (rf : ProposedTrade → AgentResult) (s tf : String) (d : String × ℚ × String),
      d.1 ≠ "buy" → d.1 ≠ "sell" →
      PortfolioManager.applyRiskGate rf s tf d = d) ∧
    (∀ (rf : ProposedTrade → AgentResult) (s tf : String) (d : String × ℚ × String),
      (d.1 = "buy" ∨ d.1 = "sell") →
      (rf ⟨s, d.1, tf, d.2.1, d.2.2, Option.none, Option.none⟩).recommendation ≠ "approve" →
      PortfolioManager.applyRiskGate rf s tf d = ("hold", 1/2, "Risk manager veto")) ∧
    (∀ (rf : ProposedTrade → AgentResult) (s tf : String) (d : String × ℚ × String),
      d.1 = "hold" → (PortfolioManager.applyRiskGate rf s tf d).1 = "hold") := by
  refine ⟨?_, ?_, ?_, ?_⟩
  · intro env pt acc
    unfold RiskAgent.analyze RiskAgent.analyzeCatch
    split
    · next r h =>
      unfold RiskAgent.analyzeBody at h
      split at h
      · injection h with h1
        subst h1
        right; right; rfl
      · split at h
        · injection h with h1
          subst h1
          right; right; rfl
        · split at h
          · exact absurd h (by simp)
          · split at h
            · exact absurd h (by simp)
            · injection h with h1
              subst h1
              unfold format_analysis_result
              dsimp only
              split
              · left; rfl
              · right; left; rfl
    · right; left; rfl
  · intro rf s tf d h1 h2
    unfold PortfolioManager.applyRiskGate
    rw [if_neg (fun hor => Or.elim hor h1 h2)]
  · intro rf s tf d hd hr
    unfold PortfolioManager.applyRiskGate
    rw [if_pos hd, if_pos hr]
  · intro rf s tf d hd
    unfold PortfolioManager.applyRiskGate
    rw [if_neg (fun hor => Or.elim hor
      (fun h => by rw [hd] at h; exact absurd h (by decide))
      (fun h => by rw [hd] at h; exact absurd h (by decide)))]
    exact hd

/-- Witness for C4 at concrete inputs: a rejecting risk answer downgrades a
buy decision to hold with the veto reason. -/
theorem C4_risk_gate_range_and_veto_witness :
    PortfolioManager.applyRiskGate
      (fun _ => format_analysis_result "RiskAgent" "reject" 1 "veto" (PyVal.dict []))
      "EURUSD" "H1" ("buy", 3/5, "Majority voting across agents") =
      ("hold", 1/2, "Risk manager veto") :=
  C4_risk_gate_range_and_veto.2.2.1
    (fun _ => format_analysis_result "RiskAgent" "reject" 1 "veto" (PyVal.dict []))
    "EURUSD" "H1" ("buy", 3/5, "Majority voting across agents")
    (Or.inl rfl) (by decide)

/-- Counterexample to C7 as stated: on a provider response `buy` at 0.5
(below the 0.6 acceptance threshold) with a bullish overall signal, the
fallback returns buy at confidence 0.6 — outside the 0.3-0.5 range the
claim asserts for the rule-based fallback. -/
theorem C7_counterexample_fallback_confidence :
    TechnicalAgent.determine_recommendation (Option.some "bullish")
      ⟨Option.some "buy", Option.some (1/2)⟩ = ("buy", 3/5) ∧
    ¬((3 : ℚ)/5 ≤ 1/2) ∧ ((1 : ℚ)/2 < 3/5) := by
  refine ⟨?_, by norm_num, by norm_num⟩
  unfold TechnicalAgent.determine_recommendation
  rw [if_neg (fun h => absurd h.2 (by norm_num))]
  rw [if_pos (by rfl)]

/-- Claim C7 (amended): the Technical agent adopts the provider's
recommendation and confidence iff the parsed recommendation is one of
buy/sell/hold and the parsed confidence is at least 0.6; otherwise it
returns the rule-based signal recommendation — buy at confidence 0.6 on a
bullish overall signal, sell at 0.6 on a bearish one, hold at 0.5
otherwise. -/
theorem C7_determine_recommendation_gating (overall : Option String)
    (llm : TechnicalAgent.LlmAnalysis) :
    (((strLower (llm.recommendation.getD "") = "buy" ∨
        strLower (llm.recommendation.getD "") = "sell" ∨
        strLower (llm.recommendation.getD "") = "hold") ∧
       llm.confidence.getD 0 ≥ 3/5) →
      TechnicalAgent.determine_recommendation overall llm =
        (strLower (llm.recommendation.getD ""), llm.confidence.getD 0)) ∧
    (¬((strLower (llm.recommendation.getD "") = "buy" ∨
        strLower (llm.recommendation.getD "") = "sell" ∨
        strLower (llm.recommendation.getD "") = "hold") ∧
       llm.confidence.getD 0 ≥ 3/5) →
      ((TechnicalAgent.strContains (strLower (overall.getD "neutral")) "bullish" = true →
          TechnicalAgent.determine_recommendation overall llm = ("buy", 3/5)) ∧
       (TechnicalAgent.strContains (strLower (overall.getD "neutral")) "bullish" = false →
        TechnicalAgent.strContains (strLower (overall.getD "neutral")) "bearish" = true →
          TechnicalAgent.determine_recommendation overall llm = ("sell", 3/5)) ∧
       (TechnicalAgent.strContains (strLower (overall.getD "neutral")) "bullish" = false →
        TechnicalAgent.strContains (strLower (overall.getD "neutral")) "bearish" = false →
          TechnicalAgent.determine_recommendation overall llm = ("hold", 1/2)))) := by
  constructor
  · intro h
    unfold TechnicalAgent.determine_recommendation
    rw [if_pos h]
  · intro h
    refine ⟨?_, ?_, ?_⟩
    · intro hb
      unfold TechnicalAgent.determine_recommendation
      rw [if_neg h, if_pos hb]
    · intro hb1 hb2
      unfold TechnicalAgent.determine_recommendation
      rw [if_neg h, if_neg (by rw [hb1]; exact Bool.false_ne_true), if_pos hb2]
    · intro hb1 hb2
      unfold TechnicalAgent.determine_recommendation
      rw [if_neg h, if_neg (by rw [hb1]; exact Bool.false_ne_true),
        if_neg (by rw [hb2]; exact Bool.false_ne_true)]

/-- Witness for C7 at concrete inputs: a provider `sell` at 0.55 is ignored
and a bullish overall signal yields buy at 0.6. -/
theorem C7_determine_recommendation_gating_witness :
    TechnicalAgent.determine_recommendation (Option.some "bullish")
      ⟨Option.some "sell", Option.some (11/20)⟩ = ("buy", 3/5) :=
  ((C7_determine_recommendation_gating (Option.some "bullish")
      ⟨Option.some "sell", Option.some (11/20)⟩).2
    (fun h => absurd h.2 (by norm_num))).1 rfl

/-- Claim C8: for the Technical, Fundamental and Sentiment agents, an
exception escaping the analysis body is caught and converted into a result
with recommendation `error`, confidence 0, and a reasoning that reports the
exception message (prefixed "Error during <kind> analysis: " as in the
sources); a normally returned result passes through unchanged, so `analyze`
never propagates an exception. -/
theorem C8_agent_exception_to_error_result :
    ∀ (e : String) (r : AgentResult),
      TechnicalAgent.analyzeCatch (Except.error e) =
        format_analysis_result "TechnicalAgent" "error" 0
          ("Error during technical analysis: " ++ e) (PyVal.dict []) ∧
      FundamentalAgent.analyzeCatch (Except.error e) =
        format_analysis_result "FundamentalAgent" "error" 0
          ("Error during fundamental analysis: " ++ e) (PyVal.dict []) ∧
      SentimentAgent.analyzeCatch (Except.error e) =
        format_analysis_result "SentimentAgent" "error" 0
          ("Error during sentiment analysis: " ++ e) (PyVal.dict []) ∧
      TechnicalAgent.analyzeCatch (Except.ok r) = r ∧
      FundamentalAgent.analyzeCatch (Except.ok r) = r ∧
      SentimentAgent.analyzeCatch (Except.ok r) = r :=
  fun _ _ => ⟨rfl, rfl, rfl, rfl, rfl, rfl⟩

/-- Claim C10: an exception escaping any internal step of the Risk Agent's
`analyze` yields a `reject` with confidence 1.0 and the exception message in
the reasoning (fail-safe), not the `error`-at-confidence-0 marker the other
agents use; in this repository the missing `Settings.MAX_DAILY_LOSS_PERCENT`
attribute triggers exactly this path on every proposed trade. -/
theorem C10_risk_failsafe_reject :
    (∀ e : String,
      RiskAgent.analyzeCatch (Except.error e) =
        format_analysis_result "RiskAgent" "reject" 1
          ("Error during risk analysis: " ++ e) (PyVal.dict [])) ∧
    (RiskAgent.analyze scenarioRiskEnv
        (Option.some ⟨"EURUSD", "buy", "H1", 3/5, "Majority voting across agents",
          Option.none, Option.none⟩) Option.none).recommendation = "reject" ∧
    (RiskAgent.analyze scenarioRiskEnv
        (Option.some ⟨"EURUSD", "buy", "H1", 3/5, "Majority voting across agents",
          Option.none, Option.none⟩) Option.none).confidence = 1 :=
  ⟨fun _ => rfl, rfl, rfl⟩

/-- Claim C9: the execution step's outcome flows only into the
`trade_details` entry of the cycle's result — the returned recommendation,
confidence and reasoning are the same for any two execution behaviours, and
once the post-risk decision is a (gate-approved) buy or sell, the final
recommendation, confidence and reasoning equal their pre-execution values,
so an execution failure never reverts the decision to hold. -/
theorem C9_execution_frame_effect (cfg : PortfolioManager.Config)
    (opps : List PortfolioManager.Candidate) (tech fund sent : AgentResult)
    (riskFn : ProposedTrade → AgentResult) (e1 e2 : PyVal → AgentResult) :
    ((PortfolioManager.analyze cfg opps tech fund sent riskFn e1).recommendation =
      (PortfolioManager.analyze cfg opps tech fund sent riskFn e2).recommendation) ∧
    ((PortfolioManager.analyze cfg opps tech fund sent riskFn e1).confidence =
      (PortfolioManager.analyze cfg opps tech fund sent riskFn e2).confidence) ∧
    ((PortfolioManager.analyze cfg opps tech fund sent riskFn e1).reasoning =
      (PortfolioManager.analyze cfg opps tech fund sent riskFn e2).reasoning) ∧
    (∀ s tf,
      PortfolioManager.selectCandidate cfg opps =
        PortfolioManager.Selection.proceed s tf →
      ((PortfolioManager.postRiskDecision cfg tech fund sent riskFn s tf).1 = "buy" ∨
       (PortfolioManager.postRiskDecision cfg tech fund sent riskFn s tf).1 = "sell") →
      (PortfolioManager.analyze cfg opps tech fund sent riskFn e1).recommendation =
        (PortfolioManager.postRiskDecision cfg tech fund sent riskFn s tf).1 ∧
      (PortfolioManager.analyze cfg opps tech fund sent riskFn e1).confidence =
        (PortfolioManager.postRiskDecision cfg tech fund sent riskFn s tf).2.1 ∧
      (PortfolioManager.analyze cfg opps tech fund sent riskFn e1).reasoning =
        (PortfolioManager.postRiskDecision cfg tech fund sent riskFn s tf).2.2 ∧
      (PortfolioManager.analyze cfg opps tech fund sent riskFn e1).recommendation ≠
        "hold") := by
  refine ⟨?_, ?_, ?_, ?_⟩
  · unfold PortfolioManager.analyze
    cases hsel : PortfolioManager.selectCandidate cfg opps <;> rfl
  · unfold PortfolioManager.analyze
    cases hsel : PortfolioManager.selectCandidate cfg opps <;> rfl
  · unfold PortfolioManager.analyze
    cases hsel : PortfolioManager.selectCandidate cfg opps <;> rfl
  · intro s tf hsel hbs
    unfold PortfolioManager.analyze
    rw [hsel]
    unfold format_analysis_result
    dsimp only
    rw [if_pos hbs]
    refine ⟨rfl, rfl, rfl, ?_⟩
    rcases hbs with h | h <;> rw [h] <;> decide

/-- Witness for C9 at concrete inputs: with an approving risk gate, the
cycle's final recommendation is directional (not hold) regardless of the
execution agent's answer. -/
theorem C9_execution_frame_effect_witness :
    (PortfolioManager.analyze scenarioCfg scenarioOpps scenarioTech scenarioFund
        scenarioSent
        (fun _ => format_analysis_result "RiskAgent" "approve" (7/10) "ok" (PyVal.dict []))
        scenarioExecFn).recommendation ≠ "hold" :=
  ((C9_execution_frame_effect scenarioCfg scenarioOpps scenarioTech scenarioFund
      scenarioSent
      (fun _ => format_analysis_result "RiskAgent" "approve" (7/10) "ok" (PyVal.dict []))
      scenarioExecFn scenarioExecFn).2.2.2 "EURUSD" "H1" rfl (Or.inl rfl)).2.2.2

/-- Claim C1 (divergence evaluation): in the end-to-end scenario —
one admitted candidate EURUSD/H1, Technical buy at 0.8, Fundamental hold,
Sentiment buy, an account state satisfying the balance/equity/margin checks
with no losses, no recorded peak and no open positions, and an approving
reasoning provider — aggregation does yield buy at 0.6, but the Risk
Agent's `analyze` rejects (its risk checks raise an `AttributeError`
because `Settings.MAX_DAILY_LOSS_PERCENT` does not exist in
`config/settings.py`), so the cycle ends hold at 0.5 with "Risk manager
veto" and empty `trade_details` — not the approve + paper ticket the claim
expects.  Moreover the execution handoff is doubly broken: the Portfolio
Manager's payload has no `trade_decision` key, so `ExecutionAgent.analyze`
errors out on it, and even a successful paper execution stores its ticket
under `ticket` while the Portfolio Manager reads the nonexistent `order`
key. -/
theorem C1_end_to_end_scenario_divergence :
    PortfolioManager.aggregateVotes "buy" "hold" "buy" =
      ("buy", 3/5, "Majority voting across agents") ∧
    (scenarioRiskFn ⟨"EURUSD", "buy", "H1", 3/5, "Majority voting across agents",
        Option.none, Option.none⟩).recommendation = "reject" ∧
    (scenarioRiskFn ⟨"EURUSD", "buy", "H1", 3/5, "Majority voting across agents",
        Option.none, Option.none⟩).reasoning =
      "Error during risk analysis: type object Settings has no attribute MAX_DAILY_LOSS_PERCENT" ∧
    (PortfolioManager.analyze scenarioCfg scenarioOpps scenarioTech scenarioFund
        scenarioSent scenarioRiskFn scenarioExecFn).recommendation = "hold" ∧
    (PortfolioManager.analyze scenarioCfg scenarioOpps scenarioTech scenarioFund
        scenarioSent scenarioRiskFn scenarioExecFn).confidence = 1/2 ∧
    (PortfolioManager.analyze scenarioCfg scenarioOpps scenarioTech scenarioFund
        scenarioSent scenarioRiskFn scenarioExecFn).reasoning = "Risk manager veto" ∧
    pyGet (PortfolioManager.analyze scenarioCfg scenarioOpps scenarioTech scenarioFund
        scenarioSent scenarioRiskFn scenarioExecFn).data "trade_details" =
      Option.some (PyVal.dict []) ∧
    (ExecutionAgent.analyze scenarioExecEnv
        (PortfolioManager.execPayload scenarioCfg "EURUSD" "buy" "H1")).recommendation =
      "error" ∧
    (ExecutionAgent.analyze scenarioExecEnv
        (PortfolioManager.execPayload scenarioCfg "EURUSD" "buy" "H1")).reasoning =
      "No trade decision provided" ∧
    (ExecutionAgent.analyze specExecEnv
        (PyVal.dict [("trade_decision",
          PyVal.dict [("instrument", PyVal.str "EURUSD"),
                      ("action", PyVal.str "buy")])])).recommendation =
      "executed_paper" ∧
    pyGet (ExecutionAgent.analyze specExecEnv
        (PyVal.dict [("trade_decision",
          PyVal.dict [("instrument", PyVal.str "EURUSD"),
                      ("action", PyVal.str "buy")])])).data "order" = Option.none ∧
    pyGet (ExecutionAgent.analyze specExecEnv
        (PyVal.dict [("trade_decision",
          PyVal.dict [("instrument", PyVal.str "EURUSD"),
                      ("action", PyVal.str "buy")])])).data "ticket" =
      Option.some (PyVal.num 123456) :=
  ⟨rfl, rfl, rfl, rfl, rfl, rfl, rfl, rfl, rfl, rfl, rfl, rfl⟩
